import Mathlib

/-!
Verification of the Real-Time Network Traffic dashboard
(src/network_dashboard.py, src/visualizations.py) against its
natural-language specification.

The dataframe handed around by the dashboard is modelled as a list of rows
with the five columns the code uses (timestamp, source, destination,
protocol, size).  `packet_processor.py` (class `PacketProcessor`) is not
part of the available sources; its record store is modelled from the spec
(see the doc comments on the `PacketProcessor` definitions below).
Wall-clock instants are modelled as natural numbers (milliseconds).
-/

namespace NetTraffic

/-- A pandas timestamp cell: either the raw value stored at capture time or a
value already converted by `pd.to_datetime`.  The payload is the instant in
milliseconds. -/
inductive TimeVal where
  | raw (t : Nat)
  | datetime (t : Nat)
deriving DecidableEq

/-- `pd.to_datetime` on one cell: converts a raw value, idempotent on values
that are already datetimes. -/
def to_datetime : TimeVal → TimeVal
  | .raw t => .datetime t
  | .datetime t => .datetime t

/-- Whether a cell has already been converted to a pandas datetime. -/
def TimeVal.isDatetime : TimeVal → Bool
  | .raw _ => false
  | .datetime _ => true

/-- One row of the dataframe produced by `PacketProcessor.get_dataframe`:
columns `timestamp`, `source`, `destination`, `protocol`, `size`. -/
structure Row where
  timestamp : TimeVal
  source : String
  destination : String
  protocol : String
  size : Nat
deriving DecidableEq

/-- A pandas `DataFrame` with the packet columns, as an ordered list of rows
(oldest first, matching the store's arrival order). -/
abbrev DataFrame := List Row

/-- Modelled from the spec: `packet_processor.py` (class `PacketProcessor`) is
not under src/.  Spec §3/§4.2: the processor owns a bounded ordered sequence
of records, oldest-to-newest by arrival, with a capacity fixed at
construction. -/
structure PacketProcessor where
  capacity : Nat
  packet_data : List Row

/-- Modelled from the spec: the constructor fixes the capacity and the store
starts empty ("created once at process start with a fixed capacity"). -/
def PacketProcessor.new (capacity : Nat) : PacketProcessor :=
  { capacity := capacity, packet_data := [] }

/-- Modelled from the spec: the internal default capacity `PacketProcessor`
falls back to, since the call site in src/network_dashboard.py line 22
constructs `PacketProcessor()` with no capacity argument and the spec fixes
no number.  Any fixed constant plays the same role. -/
def PacketProcessor.defaultCapacity : Nat := 1000

/-- Modelled from the spec: `process_packet` classifies one delivered frame
into a record and appends it to the store with ring-buffer semantics
(§4.2: "adds to the tail; if length would exceed capacity, evicts the head
first").  Classification itself is outside every claim, so the frame is
modelled as the row it classifies to. -/
def PacketProcessor.process_packet (p : PacketProcessor) (r : Row) : PacketProcessor :=
  let rs := p.packet_data ++ [r]
  { p with packet_data := rs.drop (rs.length - p.capacity) }

/-- Modelled from the spec: `get_dataframe` is the snapshot/query surface —
a point-in-time copy of the current records, oldest first (§4.2 `snapshot`). -/
def PacketProcessor.get_dataframe (p : PacketProcessor) : DataFrame :=
  p.packet_data

/-- A sequence of appends, as driven by the capture loop: one
`process_packet` per delivered frame, in arrival order. -/
def PacketProcessor.appendAll (p : PacketProcessor) (rs : List Row) : PacketProcessor :=
  rs.foldl PacketProcessor.process_packet p

/-- scapy's `sniff(prn=…, store=False, stop_filter=…)` loop: runs `prn` on
each delivered frame in order; when a `stop_filter` is supplied it is
consulted after each frame and ends the capture.  Returns the final state
and the list of frames `prn` was invoked on. -/
def sniff (stop_filter : Option (Row → Bool)) (prn : PacketProcessor → Row → PacketProcessor)
    (p : PacketProcessor) : List Row → PacketProcessor × List Row
  | [] => (p, [])
  | f :: fs =>
    let p1 := prn p f
    match stop_filter with
    | some sf =>
      if sf f then (p1, [f])
      else
        let rest := sniff stop_filter prn p1 fs
        (rest.1, f :: rest.2)
    | none =>
      let rest := sniff none prn p1 fs
      (rest.1, f :: rest.2)

/-- src/network_dashboard.py lines 24-25: the capture thread body.
`sniff` is called with `prn=processor.process_packet` and `store=False`
only — no `stop_filter`, no timeout, no cancellation check of any kind. -/
def capture_packets (p : PacketProcessor) (frames : List Row) : PacketProcessor × List Row :=
  sniff none PacketProcessor.process_packet p frames

/-- The capture thread observed against an ambient external cancellation
flag.  The source creates no cancellation token and `capture_packets`
consults nothing, so the flag cannot influence the run; the unused binder
records exactly that. -/
def capture_packets_flagged (_cancel : Bool) (p : PacketProcessor) (frames : List Row) :
    PacketProcessor × List Row :=
  capture_packets p frames

/-- src/network_dashboard.py lines 18-30: `start_packet_capture` constructs
the processor (passing no capacity argument), starts the daemon capture
thread, and returns the processor.  The return type is
`Optional[PacketProcessor]` but the returned value is always the processor,
never `None`. -/
def start_packet_capture : Option PacketProcessor :=
  let processor := PacketProcessor.new PacketProcessor.defaultCapacity
  some processor

/-! ### src/visualizations.py -/

/-- Number of occurrences of `v` in `xs` (one count of a pandas
`value_counts`). -/
def countOcc [DecidableEq α] (v : α) (xs : List α) : Nat :=
  (xs.filter (fun x => x = v)).length

/-- The distinct values of `xs` in first-occurrence order. -/
def dedupFirst [DecidableEq α] (xs : List α) : List α :=
  xs.foldl (fun acc x => if acc.contains x then acc else acc ++ [x]) []

/-- Insertion step for sorting (value, count) pairs by count, descending —
the order `value_counts` reports. -/
def insertByCountDesc (p : String × Nat) : List (String × Nat) → List (String × Nat)
  | [] => [p]
  | q :: qs => if q.2 < p.2 then p :: q :: qs else q :: insertByCountDesc p qs

/-- pandas `Series.value_counts`: occurrence counts of the distinct values,
sorted by count descending. -/
def value_counts (xs : List String) : List (String × Nat) :=
  ((dedupFirst xs).map (fun v => (v, countOcc v xs))).foldr insertByCountDesc []

/-- Insertion step for sorting (key, count) pairs by key, ascending — the
order `groupby` reports its groups in. -/
def insertByKeyAsc (p : Nat × Nat) : List (Nat × Nat) → List (Nat × Nat)
  | [] => [p]
  | q :: qs => if p.1 < q.1 then p :: q :: qs else q :: insertByKeyAsc p qs

/-- `df.groupby(keys).size()` for second-valued keys: occurrence counts of
the distinct keys, sorted by key ascending. -/
def groupBySize (ks : List Nat) : List (Nat × Nat) :=
  ((dedupFirst ks).map (fun k => (k, countOcc k ks))).foldr insertByKeyAsc []

/-- `Series.dt.floor('S')` on a (datetime) timestamp cell: the instant
truncated to whole seconds. -/
def floorSecond : TimeVal → Nat
  | .raw t => t / 1000
  | .datetime t => t / 1000

/-- One rendered plotly chart, tagged with the data it plots. -/
inductive Chart where
  | protocolPie (counts : List (String × Nat))
  | packetsTimeline (series : List (Nat × Nat))
  | topSourceIPs (tops : List (String × Nat))
deriving DecidableEq

/-- The kind of a rendered chart, forgetting its data. -/
inductive ChartKind where
  | protocolPie
  | packetsTimeline
  | topSourceIPs
deriving DecidableEq

/-- Forget a chart's data, keeping its kind. -/
def Chart.kind : Chart → ChartKind
  | .protocolPie _ => .protocolPie
  | .packetsTimeline _ => .packetsTimeline
  | .topSourceIPs _ => .topSourceIPs

/-- src/visualizations.py lines 11-19, `ProtocolPieChart.render`: pie chart
of `df['protocol'].value_counts()`.  Reads the dataframe only. -/
def ProtocolPieChart.render (df : DataFrame) : Chart :=
  Chart.protocolPie (value_counts (df.map Row.protocol))

/-- src/visualizations.py lines 22-31, `PacketsTimelineChart.render`:
reassigns `df['timestamp'] = pd.to_datetime(df['timestamp'])` — mutating the
caller's dataframe in place — then plots the per-second packet counts.
Returns the chart together with the dataframe as mutated. -/
def PacketsTimelineChart.render (df : DataFrame) : Chart × DataFrame :=
  let df2 := df.map (fun r => { r with timestamp := to_datetime r.timestamp })
  (Chart.packetsTimeline (groupBySize (df2.map (fun r => floorSecond r.timestamp))), df2)

/-- src/visualizations.py lines 34-42, `TopSourceIPsBarChart.render`: bar
chart of `df['source'].value_counts().head(10)`.  Reads the dataframe only. -/
def TopSourceIPsBarChart.render (df : DataFrame) : Chart :=
  Chart.topSourceIPs ((value_counts (df.map Row.source)).take 10)

/-- src/visualizations.py lines 45-57, `create_visualizations`: on an empty
dataframe shows the "No data to visualize." info box and renders nothing;
otherwise runs the three strategies in order (pie, timeline, bar), the
timeline one mutating the shared dataframe, which the bar chart then sees.
Returns (charts emitted in order, whether the info box was shown, the
dataframe object as it stands afterwards). -/
def create_visualizations (df : DataFrame) : List Chart × Bool × DataFrame :=
  if df.length = 0 then ([], true, df)
  else
    let c1 := ProtocolPieChart.render df
    let tl := PacketsTimelineChart.render df
    let c3 := TopSourceIPsBarChart.render tl.2
    ([c1, tl.1, c3], false, tl.2)

/-! ### src/network_dashboard.py, main -/

/-- src/network_dashboard.py lines 50-55: fetch the current data — the
processor's dataframe when the session's processor is not None, otherwise
(after the warning) an empty `pd.DataFrame()`. -/
def fetch_dataframe (procOpt : Option PacketProcessor) : DataFrame :=
  match procOpt with
  | some processor => processor.get_dataframe
  | none => []

/-- Everything one pass of `main` displays, in the order the code
produces it. -/
structure RenderOutput where
  /-- The dataframe fetched for this pass (lines 50-55). -/
  df : DataFrame
  /-- Whether the "Packet processor is not initialized." warning showed. -/
  warning_shown : Bool
  /-- The "Total Packets" metric (line 59): `len(df)`. -/
  total_packets : Nat
  /-- The "Capture Duration" metric (lines 61-62): now − session start. -/
  capture_duration : Nat
  /-- The charts `create_visualizations` rendered, in order. -/
  charts : List Chart
  /-- Whether the "No data to visualize." info box showed. -/
  info_shown : Bool
  /-- The dataframe object after `create_visualizations` ran (the timeline
  strategy mutates it in place). -/
  df_after : DataFrame
  /-- The "Recent Packets" table (lines 72-76): `df.tail(10)` reselecting
  the five columns, rendered only when the dataframe is non-empty. -/
  recent_packets : Option DataFrame
deriving DecidableEq

/-- The Streamlit session state `main` uses: `None` before the first render;
afterwards the stored `processor` value (itself an `Optional`) and the
stored `start_time`. -/
abbrev SessionState := Option (Option PacketProcessor × Nat)

/-- src/network_dashboard.py lines 32-84: one rendering pass of `main` at
wall-clock instant `now`.  Initializes the session state on the first pass
(lines 42-44), fetches the data, shows the two metrics, runs
`create_visualizations`, and shows the recent-packets table.  Returns the
session state after the pass and what was displayed. -/
def mainRender (session : SessionState) (now : Nat) : SessionState × RenderOutput :=
  let st := match session with
    | none => (start_packet_capture, now)
    | some s => s
  let procOpt := st.1
  let start_time := st.2
  let df := fetch_dataframe procOpt
  let total := df.length
  let duration := now - start_time
  let viz := create_visualizations df
  let dfA := viz.2.2
  let recent := if dfA.length > 0 then some (dfA.drop (dfA.length - 10)) else none
  (some st,
   { df := df
     warning_shown := procOpt.isNone
     total_packets := total
     capture_duration := duration
     charts := viz.1
     info_shown := viz.2.1
     df_after := dfA
     recent_packets := recent })

/-! ### Helper lemmas -/

/-- A TCP row with a raw capture timestamp, used as concrete test data. -/
def rowT (t : Nat) : Row :=
  { timestamp := .raw t, source := "10.0.0.1", destination := "10.0.0.2",
    protocol := "TCP", size := 100 }

theorem appendAll_capacity (rs : List Row) (p : PacketProcessor) :
    (p.appendAll rs).capacity = p.capacity := by
  induction rs generalizing p with
  | nil => rfl
  | cons r rs ih => exact ih (p.process_packet r)

/-- After any sequence of appends the store holds exactly the suffix of the
whole append history that fits in the capacity. -/
theorem appendAll_packet_data (rs : List Row) (p : PacketProcessor)
    (h : p.packet_data.length ≤ p.capacity) :
    (p.appendAll rs).packet_data =
      (p.packet_data ++ rs).drop (p.packet_data.length + rs.length - p.capacity) := by
  induction rs generalizing p with
  | nil =>
    have h0 : p.packet_data.length - p.capacity = 0 := Nat.sub_eq_zero_of_le h
    simp [PacketProcessor.appendAll, h0]
  | cons r rs ih =>
    have hq : (p.process_packet r).packet_data =
        (p.packet_data ++ [r]).drop (p.packet_data.length + 1 - p.capacity) := by
      simp [PacketProcessor.process_packet]
    have hqc : (p.process_packet r).capacity = p.capacity := rfl
    have hql : (p.process_packet r).packet_data.length =
        p.packet_data.length + 1 - (p.packet_data.length + 1 - p.capacity) := by
      rw [hq, List.length_drop]
      simp
    have h' : (p.process_packet r).packet_data.length ≤ (p.process_packet r).capacity := by
      rw [hql, hqc]
      omega
    have step : p.appendAll (r :: rs) = (p.process_packet r).appendAll rs := rfl
    rw [step, ih _ h', hq, hqc]
    rw [List.length_drop]
    rw [← List.drop_append_of_le_length
      (by simp only [List.length_append, List.length_cons, List.length_nil]; omega)]
    rw [List.drop_drop]
    have harr : (p.packet_data ++ [r]) ++ rs = p.packet_data ++ r :: rs := by
      simp
    rw [harr]
    congr 1
    simp only [List.length_append, List.length_cons, List.length_nil]
    omega

/-- Elements fixed by a map that leaves the whole list unchanged. -/
theorem map_fixes_mem {α : Type} (f : α → α) :
    ∀ (l : List α), l.map f = l → ∀ x ∈ l, f x = x := by
  intro l
  induction l with
  | nil =>
    intro _ x hx
    cases hx
  | cons a l ih =>
    intro h x hx
    have ha : f a = a ∧ l.map f = l := by
      constructor
      · exact (List.cons.injEq _ _ _ _).mp h |>.1
      · exact (List.cons.injEq _ _ _ _).mp h |>.2
    rcases List.mem_cons.mp hx with hx | hx
    · rw [hx]
      exact ha.1
    · exact ih ha.2 x hx

/-- The recent-packets table, as `mainRender` computes it from the
post-visualization dataframe. -/
theorem mainRender_recent (s : Option PacketProcessor × Nat) (now : Nat) :
    (mainRender (some s) now).2.recent_packets =
      (if (mainRender (some s) now).2.df_after.length > 0
       then some ((mainRender (some s) now).2.df_after.drop
         ((mainRender (some s) now).2.df_after.length - 10))
       else none) := rfl

/-! ### The claims -/

/-- C1: the record store is bounded — after any sequence of appends its
length never exceeds the configured capacity, and after more than
`capacity` appends the snapshot is exactly the last `capacity` appended
records, oldest-first (ring-buffer eviction of the oldest). -/
theorem C1_store_bounded_ring_buffer (c : Nat) (rs : List Row) :
    ((PacketProcessor.new c).appendAll rs).get_dataframe.length ≤ c ∧
    (c < rs.length →
      ((PacketProcessor.new c).appendAll rs).get_dataframe = rs.drop (rs.length - c) ∧
      ((PacketProcessor.new c).appendAll rs).get_dataframe.length = c) := by
  have hinv : (PacketProcessor.new c).packet_data.length ≤ (PacketProcessor.new c).capacity := by
    simp [PacketProcessor.new]
  have hd := appendAll_packet_data rs (PacketProcessor.new c) hinv
  simp only [PacketProcessor.new, List.nil_append, List.length_nil, Nat.zero_add] at hd
  have hds : ((PacketProcessor.new c).appendAll rs).get_dataframe = rs.drop (rs.length - c) := hd
  constructor
  · rw [hds, List.length_drop]
    omega
  · intro hlt
    refine ⟨hds, ?_⟩
    rw [hds, List.length_drop]
    omega

/-- C1 witness: the spec's scenario — capacity 2, three appended records,
snapshot is the last two in arrival order. -/
theorem C1_store_bounded_ring_buffer_witness :
    2 < ([rowT 1, rowT 2, rowT 3] : List Row).length ∧
    ((PacketProcessor.new 2).appendAll [rowT 1, rowT 2, rowT 3]).get_dataframe
      = [rowT 1, rowT 2, rowT 3].drop ([rowT 1, rowT 2, rowT 3].length - 2) ∧
    ((PacketProcessor.new 2).appendAll [rowT 1, rowT 2, rowT 3]).get_dataframe.length = 2 :=
  ⟨by decide, (C1_store_bounded_ring_buffer 2 [rowT 1, rowT 2, rowT 3]).2 (by decide)⟩

/-- C2: the claim says the capture loop consults a cancellation condition
at least once per processed frame.  The code calls `sniff` with `prn` only —
no stop condition of any kind — so even with an external cancellation flag
raised before the first frame, every delivered frame is still processed:
no cancellation condition is ever consulted. -/
theorem C2_cancellation_never_consulted :
    (capture_packets_flagged true (PacketProcessor.new PacketProcessor.defaultCapacity)
        [rowT 1, rowT 2]).2 = [rowT 1, rowT 2] := by
  decide

/-- C3: the claim says the store capacity is an explicit startup parameter of
the capture engine's construction.  `start_packet_capture` constructs
`PacketProcessor()` passing no capacity argument, so the capacity of the
processor produced at process start is the processor's own internal
default — not a startup parameter. -/
theorem C3_capacity_is_internal_default :
    start_packet_capture.map PacketProcessor.capacity
      = some PacketProcessor.defaultCapacity := rfl

/-- C4: in every rendering pass the "Total Packets" metric equals the length
of the dataframe fetched from the processor in that same pass — for an
initialized processor that is the length of its `get_dataframe` snapshot,
and on the very first pass the length of the startup processor's
snapshot. -/
theorem C4_total_packets_matches_snapshot (procOpt : Option PacketProcessor) (t0 now : Nat) :
    (mainRender (some (procOpt, t0)) now).2.total_packets = (fetch_dataframe procOpt).length ∧
    (∀ p : PacketProcessor,
      (mainRender (some (some p, t0)) now).2.total_packets = p.get_dataframe.length) ∧
    (mainRender none now).2.total_packets = (fetch_dataframe start_packet_capture).length :=
  ⟨rfl, fun _ => rfl, rfl⟩

/-- C5: the processor and the start time are created exactly once — the
first pass stores `(start_packet_capture, now)` in the session, every later
pass returns the session unchanged, the displayed capture duration is
always `now − start_time`, and across passes at non-decreasing clock
instants the duration is non-decreasing. -/
theorem C5_session_initialized_once (x : Option PacketProcessor × Nat) (t0 n1 n2 : Nat)
    (h : n1 ≤ n2) :
    (mainRender none t0).1 = some (start_packet_capture, t0) ∧
    (mainRender (some x) n1).1 = some x ∧
    (mainRender (some x) n1).2.capture_duration = n1 - x.2 ∧
    (mainRender (some x) n1).2.capture_duration ≤ (mainRender (some x) n2).2.capture_duration := by
  refine ⟨rfl, rfl, rfl, ?_⟩
  show n1 - x.2 ≤ n2 - x.2
  omega

/-- C5 witness: a session initialized at instant 5 re-rendered at instants
7 and then 9. -/
theorem C5_session_initialized_once_witness :
    7 ≤ 9 ∧
    ((mainRender none 5).1 = some (start_packet_capture, 5) ∧
     (mainRender (some (start_packet_capture, 5)) 7).1 = some (start_packet_capture, 5) ∧
     (mainRender (some (start_packet_capture, 5)) 7).2.capture_duration = 7 - 5 ∧
     (mainRender (some (start_packet_capture, 5)) 7).2.capture_duration
       ≤ (mainRender (some (start_packet_capture, 5)) 9).2.capture_duration) :=
  ⟨by decide, C5_session_initialized_once (start_packet_capture, 5) 5 7 9 (by decide)⟩

/-- C6: rendering with an empty record set is not an error — the pass
reports zero total packets, renders no charts (only the info box), and
shows no recent-packets table. -/
theorem C6_empty_store_empty_view (p : PacketProcessor) (t0 now : Nat)
    (h : p.get_dataframe = []) :
    (mainRender (some (some p, t0)) now).2.total_packets = 0 ∧
    (mainRender (some (some p, t0)) now).2.charts = [] ∧
    (mainRender (some (some p, t0)) now).2.info_shown = true ∧
    (mainRender (some (some p, t0)) now).2.recent_packets = none := by
  simp [mainRender, fetch_dataframe, h, create_visualizations]

/-- C6 witness: a freshly constructed processor before any frame arrives. -/
theorem C6_empty_store_empty_view_witness :
    (PacketProcessor.new 10).get_dataframe = [] ∧
    ((mainRender (some (some (PacketProcessor.new 10), 0)) 3).2.total_packets = 0 ∧
     (mainRender (some (some (PacketProcessor.new 10), 0)) 3).2.charts = [] ∧
     (mainRender (some (some (PacketProcessor.new 10), 0)) 3).2.info_shown = true ∧
     (mainRender (some (some (PacketProcessor.new 10), 0)) 3).2.recent_packets = none) :=
  ⟨rfl, C6_empty_store_empty_view (PacketProcessor.new 10) 0 3 rfl⟩

/-- C7: a snapshot lists records in arrival order (it is a suffix of the
append history), and whenever the dataframe of a pass is non-empty the
recent-packets table is exactly the last min(10, length) rows of that
dataframe, in the same relative order. -/
theorem C7_snapshot_order_and_recent_tail (c : Nat) (rs : List Row)
    (procOpt : Option PacketProcessor) (t0 now : Nat)
    (h : 0 < (mainRender (some (procOpt, t0)) now).2.df_after.length) :
    List.IsSuffix ((PacketProcessor.new c).appendAll rs).get_dataframe rs ∧
    (mainRender (some (procOpt, t0)) now).2.recent_packets
      = some ((mainRender (some (procOpt, t0)) now).2.df_after.drop
          ((mainRender (some (procOpt, t0)) now).2.df_after.length - 10)) ∧
    ((mainRender (some (procOpt, t0)) now).2.df_after.drop
        ((mainRender (some (procOpt, t0)) now).2.df_after.length - 10)).length
      = min 10 (mainRender (some (procOpt, t0)) now).2.df_after.length := by
  refine ⟨?_, ?_, ?_⟩
  · have hinv : (PacketProcessor.new c).packet_data.length ≤ (PacketProcessor.new c).capacity := by
      simp [PacketProcessor.new]
    have hd := appendAll_packet_data rs (PacketProcessor.new c) hinv
    simp only [PacketProcessor.new, List.nil_append, List.length_nil, Nat.zero_add] at hd
    have hds : ((PacketProcessor.new c).appendAll rs).get_dataframe
        = rs.drop (rs.length - c) := hd
    rw [hds]
    exact List.drop_suffix _ _
  · rw [mainRender_recent (procOpt, t0) now]
    simp only [gt_iff_lt, h, if_true]
  · rw [List.length_drop]
    omega

/-- C7 witness: a store of capacity 1 that received one packet, rendered in
a pass whose dataframe has one row. -/
theorem C7_snapshot_order_and_recent_tail_witness :
    0 < (mainRender (some (some ((PacketProcessor.new 1).appendAll [rowT 1]), 0)) 3).2.df_after.length ∧
    (List.IsSuffix ((PacketProcessor.new 1).appendAll [rowT 1]).get_dataframe [rowT 1] ∧
     (mainRender (some (some ((PacketProcessor.new 1).appendAll [rowT 1]), 0)) 3).2.recent_packets
       = some ((mainRender (some (some ((PacketProcessor.new 1).appendAll [rowT 1]), 0)) 3).2.df_after.drop
           ((mainRender (some (some ((PacketProcessor.new 1).appendAll [rowT 1]), 0)) 3).2.df_after.length - 10)) ∧
     ((mainRender (some (some ((PacketProcessor.new 1).appendAll [rowT 1]), 0)) 3).2.df_after.drop
         ((mainRender (some (some ((PacketProcessor.new 1).appendAll [rowT 1]), 0)) 3).2.df_after.length - 10)).length
       = min 10 (mainRender (some (some ((PacketProcessor.new 1).appendAll [rowT 1]), 0)) 3).2.df_after.length) :=
  ⟨by decide,
   C7_snapshot_order_and_recent_tail 1 [rowT 1]
     (some ((PacketProcessor.new 1).appendAll [rowT 1])) 0 3 (by decide)⟩

/-- C8: `create_visualizations` renders exactly three charts in the fixed
order pie, timeline, bar for every non-empty dataframe, and none for an
empty one. -/
theorem C8_three_charts_fixed_order (df : DataFrame) :
    (create_visualizations df).1.map Chart.kind =
      if df.length = 0 then []
      else [ChartKind.protocolPie, ChartKind.packetsTimeline, ChartKind.topSourceIPs] := by
  by_cases h : df.length = 0 <;>
    simp [create_visualizations, h, Chart.kind, ProtocolPieChart.render,
      PacketsTimelineChart.render, TopSourceIPsBarChart.render]

/-- C9: on a non-empty dataframe the timeline strategy reassigns the
timestamp column in place — after `create_visualizations` the caller's
dataframe has every timestamp converted by `to_datetime`, and if any
timestamp was not already a datetime the dataframe has genuinely changed. -/
theorem C9_timeline_mutates_dataframe (df : DataFrame) (h : 0 < df.length) :
    (create_visualizations df).2.2
      = df.map (fun r => { r with timestamp := to_datetime r.timestamp }) ∧
    ((∃ r ∈ df, r.timestamp.isDatetime = false) → (create_visualizations df).2.2 ≠ df) := by
  have hne : ¬ df.length = 0 := by omega
  have hmut : (create_visualizations df).2.2
      = df.map (fun r => { r with timestamp := to_datetime r.timestamp }) := by
    simp [create_visualizations, hne, PacketsTimelineChart.render]
  refine ⟨hmut, ?_⟩
  rintro ⟨r, hr, hraw⟩ heq
  rw [hmut] at heq
  have hfix := map_fixes_mem (fun r => { r with timestamp := to_datetime r.timestamp }) df heq r hr
  have hts : to_datetime r.timestamp = r.timestamp := congrArg Row.timestamp hfix
  cases hcase : r.timestamp with
  | raw t =>
    rw [hcase] at hts
    exact TimeVal.noConfusion hts
  | datetime t =>
    rw [hcase] at hraw
    exact Bool.noConfusion hraw

/-- C9 witness: a one-row dataframe with a raw timestamp is changed by
`create_visualizations`. -/
theorem C9_timeline_mutates_dataframe_witness :
    0 < ([rowT 1] : DataFrame).length ∧
    (create_visualizations [rowT 1]).2.2 ≠ [rowT 1] :=
  ⟨by decide,
   (C9_timeline_mutates_dataframe [rowT 1] (by decide)).2 ⟨rowT 1, by decide, by decide⟩⟩

/-- C10: `start_packet_capture` always returns a processor despite its
Optional annotation, so the "Packet processor is not initialized." warning
is never shown — not on the initializing pass and not on any later pass
over the session state that pass produced. -/
theorem C10_warning_branch_unreachable (now later : Nat) :
    start_packet_capture.isSome = true ∧
    (mainRender none now).2.warning_shown = false ∧
    (mainRender ((mainRender none now).1) later).2.warning_shown = false :=
  ⟨rfl, rfl, rfl⟩

end NetTraffic
